import Mathlib

/-!
Verification of the parachute_anim pipeline core (src/core.py, src/api.py)
through a shallow embedding in Lean 4.

The embedding models:
  * the Python exception class hierarchy relevant to the pipeline
    (stdlib classes `Exception`, `OSError`, `FileNotFoundError`,
    `subprocess.SubprocessError`, `subprocess.CalledProcessError`,
    `subprocess.TimeoutExpired`, `ValueError`, the classes the pipeline defines
    from src/core.py lines 25-47, and the tenacity class `RetryError`);
  * the tenacity retry combinator `@retry(stop=stop_after_attempt(n),
    retry=retry_if_exception_type(...))` used on `run_command` and
    `download_segment`;
  * the stage functions `run_command`, `download_segment`,
    `extract_frames`, `run_meshroom`, `collect_exports` and the
    orchestrator `pipeline`;
  * the HTTP handler `launch_job` from src/api.py.

External-process behaviour is a parameter: each tool invocation is given a
function from the attempt number (1-based) to the outcome of that spawn.
Each modelled operation also returns a trace of the spawns it performed, so
that statements of the form "tool X is never invoked" are expressible.
-/

namespace Parachute

/-- The Python exception classes that appear in the pipeline code paths. -/
inductive ExcClass
  | exception
  | osError
  | fileNotFoundError
  | subprocessError
  | calledProcessError
  | timeoutExpired
  | valueError
  | pipelineError
  | videoDownloadError
  | frameExtractionError
  | meshroomError
  | dependencyError
  | fileSystemError
  | retryError
  deriving DecidableEq, Repr

open ExcClass

/-- Direct superclass of each exception class, as in Python: the classes of
src/core.py lines 29-47 each extend `PipelineError`, which extends
`Exception`; in the stdlib, `CalledProcessError` and `TimeoutExpired` extend
`subprocess.SubprocessError`, and `FileNotFoundError` extends `OSError`;
the tenacity class `RetryError` extends `Exception` directly. -/
def parentClass : ExcClass → Option ExcClass
  | .exception => none
  | .osError => some .exception
  | .fileNotFoundError => some .osError
  | .subprocessError => some .exception
  | .calledProcessError => some .subprocessError
  | .timeoutExpired => some .subprocessError
  | .valueError => some .exception
  | .pipelineError => some .exception
  | .videoDownloadError => some .pipelineError
  | .frameExtractionError => some .pipelineError
  | .meshroomError => some .pipelineError
  | .dependencyError => some .pipelineError
  | .fileSystemError => some .pipelineError
  | .retryError => some .exception

/-- Walk up the superclass chain, with fuel (the hierarchy has depth < 8). -/
def ancestorsAux : Nat → ExcClass → List ExcClass
  | 0, _ => []
  | fuel + 1, c =>
    match parentClass c with
    | none => []
    | some p => p :: ancestorsAux fuel p

def ancestors (c : ExcClass) : List ExcClass := ancestorsAux 8 c

/-- Python `isinstance`-style check: `c` is `d` or a (transitive) subclass
of `d`.  This is the matching test used by `except d:` clauses and by
tenacity `retry_if_exception_type((d, ...))`. -/
def isSubclass (c d : ExcClass) : Bool := c = d || d ∈ ancestors c

/-- A raised Python exception: its class, plus (for the tenacity class `RetryError`)
the class of the exception of the last underlying attempt. -/
structure Exc where
  cls : ExcClass
  cause : Option ExcClass
  deriving DecidableEq, Repr

/-- The external tools the pipeline spawns. -/
inductive Tool
  | ytdlp
  | youtubedl
  | ffmpeg
  | meshroom
  deriving DecidableEq, Repr

/-- Outcome of one attempt to spawn an external process:
either the spawn itself fails at the OS level (`subprocess.run` raises,
e.g. `FileNotFoundError` when the executable is absent), or the process
runs to completion with some exit code. -/
inductive SpawnResult
  | osFail (cls : ExcClass)
  | completed (returncode : Int)
  deriving DecidableEq, Repr

/-- One attempt of the body of `run_command` (src/core.py lines 84-102):
`subprocess.run(..., check=False)` followed by raising
`CalledProcessError` when the exit code is non-zero.  The
`except subprocess.SubprocessError: raise` clause re-raises unchanged, so it
does not alter the outcome. -/
def runAttempt : SpawnResult → Except Exc Unit
  | .osFail c => .error ⟨c, none⟩
  | .completed rc => if rc = 0 then .ok () else .error ⟨calledProcessError, none⟩

/-- tenacity retry loop.  `att i` is the outcome of the i-th attempt
(1-based) together with the spawn trace that attempt produced.  `fuel` is
the number of retries still allowed (`stop_after_attempt n` gives initial
fuel `n - 1`).  On a retryable failure with fuel left it retries; on a
retryable failure with no fuel left it raises `RetryError` wrapping the
last exception (the tenacity default, `reraise=False`); a non-retryable
exception propagates unchanged at once.  Returns the result, the number of
attempts made, and the concatenated spawn trace. -/
def tenacityLoop {α : Type} (retryOn : ExcClass → Bool)
    (att : Nat → Except Exc α × List Tool) (i : Nat) :
    Nat → Except Exc α × Nat × List Tool
  | 0 =>
    match att i with
    | (.ok v, tr) => (.ok v, i, tr)
    | (.error e, tr) =>
      if retryOn e.cls then (.error ⟨retryError, some e.cls⟩, i, tr)
      else (.error e, i, tr)
  | fuel + 1 =>
    match att i with
    | (.ok v, tr) => (.ok v, i, tr)
    | (.error e, tr) =>
      if retryOn e.cls then
        let rest := tenacityLoop retryOn att (i + 1) fuel
        (rest.1, rest.2.1, tr ++ rest.2.2)
      else (.error e, i, tr)

/-- tenacity `@retry(stop=stop_after_attempt(maxAttempts), retry=...)`. -/
def tenacityRun {α : Type} (retryOn : ExcClass → Bool) (maxAttempts : Nat)
    (att : Nat → Except Exc α × List Tool) : Except Exc α × Nat × List Tool :=
  tenacityLoop retryOn att 1 (maxAttempts - 1)

/-- The retry predicate of `run_command`:
`retry_if_exception_type(subprocess.SubprocessError)`. -/
def subprocessRetryOn (c : ExcClass) : Bool := isSubclass c subprocessError

/-- `run_command` (src/core.py lines 79-102): the body wrapped in
`@retry(stop=stop_after_attempt(3), wait=wait_exponential(...),
retry=retry_if_exception_type(subprocess.SubprocessError))`.
`beh i` is the outcome of the i-th spawn of the command. -/
def runCommand (tool : Tool) (beh : Nat → SpawnResult) :
    Except Exc Unit × Nat × List Tool :=
  tenacityRun subprocessRetryOn 3 (fun i => (runAttempt (beh i), [tool]))

/-- `settings.MAX_DURATION` (src/config.py line 98): default 300 seconds. -/
def MAX_DURATION : Int := 300

/-- `settings.SUPPORTED_EXPORT_FORMATS` (src/config.py line 102). -/
def SUPPORTED_EXPORT_FORMATS : List String := [".obj", ".stl", ".glb", ".ply"]

/-- Whether eight characters are two digits, a colon, two digits, a colon
and two digits: the core of the pattern `^\d{2}:\d{2}:\d{2}$`. -/
def timecodeCore : List Char → Bool
  | [a, b, c, d, e, f, g, h] =>
    a.isDigit && b.isDigit && c == ':' && d.isDigit && e.isDigit &&
      f == ':' && g.isDigit && h.isDigit
  | _ => false

/-- Python `re.match` of the pattern `^\d{2}:\d{2}:\d{2}$` as a Boolean: in Python,
`$` also matches just before a single trailing newline, so a timecode
followed by one final newline is accepted as well. -/
def matchesTimecode (s : String) : Bool :=
  timecodeCore s.data ||
    (match s.data with
     | [a, b, c, d, e, f, g, h, nl] =>
       nl == Char.ofNat 10 && timecodeCore [a, b, c, d, e, f, g, h]
     | _ => false)

/-- The validation prologue of `download_segment` (src/core.py lines
149-156), run before the `try` block: `duration > settings.MAX_DURATION`
raises `ValueError`, then a start time not matching `^\d{2}:\d{2}:\d{2}$`
raises `ValueError`.  Returns the exception raised, if any.  There is no
lower bound check on `duration` here. -/
def downloadValidate (start : String) (duration : Int) : Option Exc :=
  if duration > MAX_DURATION then some ⟨valueError, none⟩
  else if !matchesTimecode start then some ⟨valueError, none⟩
  else none

/-- The external-world behaviour one execution of the `download_segment`
body can observe: whether `ensure_directories` succeeds, and the per-spawn
outcome of each tool the body may invoke. -/
structure DownloadWorld where
  fsOk : Bool
  ytdlp : Nat → SpawnResult
  youtubedl : Nat → SpawnResult
  ffmpeg : Nat → SpawnResult

/-- One execution of the body of `download_segment` (src/core.py lines
149-195).  After validation: `ensure_directories`; `run_command` on yt-dlp;
on an exception matching `except subprocess.CalledProcessError:` the
youtube-dl fallback runs, and if that in turn raises a
`CalledProcessError`, `VideoDownloadError` is raised; then `run_command`
on ffmpeg for the trim.  Every exception escaping the inner logic is caught
by the outer clauses (lines 190-195: `except subprocess.CalledProcessError`
and `except Exception`) and re-raised as `VideoDownloadError`. -/
def downloadBody (w : DownloadWorld) (start : String) (duration : Int) :
    Except Exc Unit × List Tool :=
  match downloadValidate start duration with
  | some e => (.error e, [])
  | none =>
    if !w.fsOk then (.error ⟨videoDownloadError, none⟩, [])
    else
      let r1 := runCommand .ytdlp w.ytdlp
      match r1.1 with
      | .ok _ =>
        let r3 := runCommand .ffmpeg w.ffmpeg
        match r3.1 with
        | .ok _ => (.ok (), r1.2.2 ++ r3.2.2)
        | .error _ => (.error ⟨videoDownloadError, none⟩, r1.2.2 ++ r3.2.2)
      | .error e1 =>
        if isSubclass e1.cls calledProcessError then
          let r2 := runCommand .youtubedl w.youtubedl
          match r2.1 with
          | .ok _ =>
            let r3 := runCommand .ffmpeg w.ffmpeg
            match r3.1 with
            | .ok _ => (.ok (), r1.2.2 ++ r2.2.2 ++ r3.2.2)
            | .error _ =>
              (.error ⟨videoDownloadError, none⟩, r1.2.2 ++ r2.2.2 ++ r3.2.2)
          | .error _ => (.error ⟨videoDownloadError, none⟩, r1.2.2 ++ r2.2.2)
        else (.error ⟨videoDownloadError, none⟩, r1.2.2)

/-- The retry predicate of the decorator on `download_segment`:
`retry_if_exception_type((subprocess.CalledProcessError,
VideoDownloadError))`. -/
def downloadRetryOn (c : ExcClass) : Bool :=
  isSubclass c calledProcessError || isSubclass c videoDownloadError

/-- `download_segment` (src/core.py lines 132-195): the body under
`@retry(stop=stop_after_attempt(3), wait=wait_exponential(...),
retry=retry_if_exception_type((subprocess.CalledProcessError,
VideoDownloadError)))`.  `w i` is the world the i-th stage attempt sees. -/
def downloadSegment (w : Nat → DownloadWorld) (start : String) (duration : Int) :
    Except Exc Unit × Nat × List Tool :=
  tenacityRun downloadRetryOn 3 (fun i => downloadBody (w i) start duration)

/-- The external-world behaviour `extract_frames` can observe. -/
structure ExtractWorld where
  segmentExists : Bool
  fsOk : Bool
  ffmpeg : Nat → SpawnResult
  framesAfter : Nat

/-- The body of `extract_frames` (src/core.py lines 211-239), before its
`except` clauses: raises `FileNotFoundError` when the video segment is
absent, `FileSystemError` when `ensure_directories` fails, runs ffmpeg via
`run_command`, then counts the extracted frames and raises
`FrameExtractionError` when the count is zero; otherwise returns the
count. -/
def extractFramesBody (w : ExtractWorld) : Except Exc Nat × List Tool :=
  if !w.segmentExists then (.error ⟨fileNotFoundError, none⟩, [])
  else if !w.fsOk then (.error ⟨fileSystemError, none⟩, [])
  else
    let r := runCommand .ffmpeg w.ffmpeg
    match r.1 with
    | .error e => (.error e, r.2.2)
    | .ok _ =>
      if w.framesAfter = 0 then (.error ⟨frameExtractionError, none⟩, r.2.2)
      else (.ok w.framesAfter, r.2.2)

/-- `extract_frames` (src/core.py lines 197-245): the body, with every
escaping exception translated by the clauses at lines 240-245
(`except subprocess.CalledProcessError` and the blanket `except Exception`)
into `FrameExtractionError`. -/
def extractFrames (w : ExtractWorld) : Except Exc Nat × List Tool :=
  let r := extractFramesBody w
  match r.1 with
  | .ok n => (.ok n, r.2)
  | .error _ => (.error ⟨frameExtractionError, none⟩, r.2)

/-- The external-world behaviour `run_meshroom` can observe. -/
structure MeshroomWorld where
  fsOk : Bool
  meshroomInstalled : Bool
  frameCount : Nat
  meshroom : Nat → SpawnResult

/-- `run_meshroom` (src/core.py lines 247-298): `ensure_directories`, then
`check_command_exists(settings.MESHROOM_BIN)` failing with `MeshroomError`,
then the hard-coded `frame_count < 10` floor failing with `MeshroomError`,
then the reconstruction binary via `run_command`.  Every exception escaping
the body is translated by the clauses at lines 293-298 into
`MeshroomError`.  Returns `true` on success, with the spawn trace. -/
def runMeshroom (w : MeshroomWorld) : Except Exc Bool × List Tool :=
  if !w.fsOk then (.error ⟨meshroomError, none⟩, [])
  else if !w.meshroomInstalled then (.error ⟨meshroomError, none⟩, [])
  else if w.frameCount < 10 then (.error ⟨meshroomError, none⟩, [])
  else
    let r := runCommand .meshroom w.meshroom
    match r.1 with
    | .ok _ => (.ok true, r.2.2)
    | .error _ => (.error ⟨meshroomError, none⟩, r.2.2)

/-- A file found under the reconstruction output directory, described by
its `pathlib` stem and suffix (the parts `collect_exports` uses to build
the destination name). -/
structure OutFile where
  stem : String
  suffix : String
  deriving DecidableEq, Repr

/-- Destination file name chosen by `collect_exports` (src/core.py lines
326-328): `f"{file.stem}_{timestamp}{file.suffix}"`. -/
def destName (ts : String) (f : OutFile) : String :=
  f.stem ++ "_" ++ ts ++ f.suffix

/-- `collect_exports` (src/core.py lines 300-347), as a function of the
recursive listing of the output directory and of the timestamp string
`datetime.now().strftime("%Y%m%d_%H%M%S")` taken at the start of the run:
returns `[]` when the output directory is empty, and otherwise, for each
supported extension in order, the destination names of the files with that
suffix. -/
def collectExports (tree : List OutFile) (ts : String) : List String :=
  if tree.isEmpty then []
  else
    SUPPORTED_EXPORT_FORMATS.flatMap fun ext =>
      (tree.filter fun f => f.suffix == ext).map (destName ts)

/-- The pipeline stages, for recording which stage functions a run of the
orchestrator actually entered. -/
inductive Stage
  | download
  | extraction
  | reconstruction
  | collection
  deriving DecidableEq, Repr

/-- The external-world behaviour one run of `pipeline` can observe. -/
structure PipelineWorld where
  fsOk : Bool
  depsOk : Bool
  dl : Nat → DownloadWorld
  ex : ExtractWorld
  mr : MeshroomWorld
  outTree : List OutFile
  ts : String

/-- `pipeline` (src/core.py lines 348-404): `ensure_directories`, then
`install_dependencies` (modelled by `depsOk`: on failure it raises
`DependencyError`), then the four stages strictly in order, each run only
if the previous one succeeded; any stage exception is re-raised unchanged
by the `except` clause at lines 401-404.  Returns the export list on
success, paired with the list of stage functions that were entered. -/
def pipeline (w : PipelineWorld) (start : String) (duration : Int) :
    Except Exc (List String) × List Stage :=
  if !w.fsOk then (.error ⟨fileSystemError, none⟩, [])
  else if !w.depsOk then (.error ⟨dependencyError, none⟩, [])
  else
    let rd := downloadSegment w.dl start duration
    match rd.1 with
    | .error e => (.error e, [.download])
    | .ok _ =>
      let re := extractFrames w.ex
      match re.1 with
      | .error e => (.error e, [.download, .extraction])
      | .ok _ =>
        let rm := runMeshroom w.mr
        match rm.1 with
        | .error e => (.error e, [.download, .extraction, .reconstruction])
        | .ok _ =>
          (.ok (collectExports w.outTree w.ts),
            [.download, .extraction, .reconstruction, .collection])

/-- The body of a `POST /launch` request (src/api.py `JobRequest`). -/
structure JobRequest where
  video_url : String
  start_time : String
  duration : Int

/-- `launch_job` (src/api.py lines 166-228), up to the point where the
background task is scheduled: `duration > settings.MAX_DURATION` then
`duration < 1` then the timecode pattern then the URL scheme are checked in
order, each failure raising `HTTPException(400)` before
`background_tasks.add_task` is reached.  Returns the HTTP status code of
the failure, or success, together with whether a background task was
scheduled (all external-process work happens only inside that task). -/
def launchJob (job : JobRequest) : Except Nat Unit × Bool :=
  if job.duration > MAX_DURATION then (.error 400, false)
  else if job.duration < 1 then (.error 400, false)
  else if !matchesTimecode job.start_time then (.error 400, false)
  else if !(job.video_url.startsWith "http://" ||
            job.video_url.startsWith "https://") then (.error 400, false)
  else (.ok (), true)

/-! Shared helper definitions and lemmas for the theorems below. -/

/-- Whether a spawn attempt ended with the target program exiting with a
non-zero code. -/
def isNonzeroExit : SpawnResult → Bool
  | .completed rc => rc != 0
  | .osFail _ => false

/-- A spawn behaviour in which every spawn succeeds with exit code 0. -/
def okSpawn : Nat → SpawnResult := fun _ => .completed 0

/-- A world in which yt-dlp always exits with code 1 and everything else
succeeds. -/
def ytdlpFailsWorld : DownloadWorld :=
  ⟨true, fun _ => .completed 1, okSpawn, okSpawn⟩

/-- A world in which frame extraction runs but produces zero frames. -/
def zeroFramesWorld : ExtractWorld := ⟨true, true, okSpawn, 0⟩

/-- A pipeline world whose download succeeds and whose extraction produces
zero frames. -/
def zeroFramesPipeline : PipelineWorld :=
  ⟨true, true, fun _ => ⟨true, okSpawn, okSpawn, okSpawn⟩, zeroFramesWorld,
    ⟨true, true, 12, okSpawn⟩, [⟨"model", ".obj"⟩], "20240101_000000"⟩

theorem runAttempt_nonzero {r : SpawnResult} (h : isNonzeroExit r = true) :
    runAttempt r = .error ⟨calledProcessError, none⟩ := by
  cases r with
  | osFail c => simp [isNonzeroExit] at h
  | completed rc =>
    simp [isNonzeroExit] at h
    simp [runAttempt, h]

theorem data_length (s : String) : s.data.length = s.length := by
  cases s
  rfl

/-- If two concatenations agree and the middle and last parts have matching
lengths, the middle parts agree. -/
theorem append_middle_eq {a b t1 t2 e1 e2 : List Char}
    (h : a ++ t1 ++ e1 = b ++ t2 ++ e2)
    (hts : t1.length = t2.length) (hes : e1.length = e2.length) :
    t1 = t2 :=
  (List.append_inj' (List.append_inj' h hes).1 hts).2

/-- Every name produced by `collectExports` is the destination name of a
source file whose suffix is one of the supported formats. -/
theorem collectExports_mem {t : List OutFile} {ts n : String}
    (h : n ∈ collectExports t ts) :
    ∃ f, f ∈ t ∧ f.suffix ∈ SUPPORTED_EXPORT_FORMATS ∧ n = destName ts f := by
  unfold collectExports at h
  by_cases he : t.isEmpty
  · simp [he] at h
  · rw [if_neg he] at h
    obtain ⟨ext, hext, hm⟩ := List.mem_flatMap.1 h
    obtain ⟨f, hf, hn⟩ := List.mem_map.1 hm
    obtain ⟨hft, hsuf⟩ := List.mem_filter.1 hf
    exact ⟨f, hft, (beq_iff_eq.1 hsuf) ▸ hext, hn.symm⟩

/-- Claim C1 (amended): `run_command` retries up to 3 attempts exactly on
exceptions matching `subprocess.SubprocessError` — which includes the
`CalledProcessError` raised on a non-zero exit of the target program, so a
non-zero exit IS retried, and after 3 failing attempts a retry-exhausted
`RetryError` propagates; an OS-level spawn failure such as
`FileNotFoundError` is NOT a `SubprocessError`, is never retried, and
propagates from the first attempt. -/
theorem runCommand_retry_policy :
    (∀ t beh, (∀ i, isNonzeroExit (beh i) = true) →
      (runCommand t beh).1 = .error ⟨retryError, some calledProcessError⟩ ∧
      (runCommand t beh).2.1 = 3) ∧
    (∀ t beh c, isSubclass c subprocessError = false →
      beh 1 = SpawnResult.osFail c →
      (runCommand t beh).1 = .error ⟨c, none⟩ ∧
      (runCommand t beh).2.1 = 1) := by
  constructor
  · intro t beh h
    have h1 := runAttempt_nonzero (h 1)
    have h2 := runAttempt_nonzero (h 2)
    have h3 := runAttempt_nonzero (h 3)
    have hret : subprocessRetryOn calledProcessError = true := by decide
    simp [runCommand, tenacityRun, tenacityLoop, h1, h2, h3, hret]
  · intro t beh c hc hb
    have hret : subprocessRetryOn c = false := hc
    simp [runCommand, tenacityRun, tenacityLoop, runAttempt, hb, hret]

/-- Witness for `runCommand_retry_policy` at concrete inputs: a command
that always exits with code 1 is attempted 3 times, and a command whose
executable is missing fails on the single first attempt. -/
theorem runCommand_retry_policy_witness :
    ((runCommand Tool.ytdlp fun _ => SpawnResult.completed 1).2.1 = 3) ∧
    ((runCommand Tool.ytdlp fun _ =>
        SpawnResult.osFail fileNotFoundError).2.1 = 1) :=
  ⟨(runCommand_retry_policy.1 Tool.ytdlp _ (fun _ => by decide)).2,
   (runCommand_retry_policy.2 Tool.ytdlp _ fileNotFoundError
      (by decide) rfl).2⟩

/-- Counterexample to claim C1 as stated: with the target program exiting
with code 1 on every spawn, `run_command` does not fail on the first
attempt — it makes 3 attempts, because `CalledProcessError` is a subclass
of `subprocess.SubprocessError`, the retry predicate of the decorator. -/
theorem runCommand_nonzero_exit_retried :
    (runCommand Tool.ytdlp fun _ => SpawnResult.completed 1).2.1 = 3 ∧
    ¬ (runCommand Tool.ytdlp fun _ => SpawnResult.completed 1).2.1 = 1 ∧
    isSubclass calledProcessError subprocessError = true := by
  refine ⟨rfl, by decide, by decide⟩

/-- Claim C2 (amended): two runs of `collect_exports` against the same
reconstruction output produce pairwise distinct destination names PROVIDED
the timestamp strings of the two runs differ; since the timestamp has
second resolution and fixed length, two runs in different seconds never
collide, but two runs within the same second share the timestamp and do
overwrite (see the counterexample).  The hypothesis that the two timestamp
strings have equal length holds for the fixed format `%Y%m%d_%H%M%S`. -/
theorem collectExports_no_overwrite (t : List OutFile) (ts1 ts2 : String)
    (hlen : ts1.length = ts2.length) (hne : ts1 ≠ ts2) (n : String)
    (h1 : n ∈ collectExports t ts1) : n ∉ collectExports t ts2 := by
  intro h2
  obtain ⟨f, _, hf4, hnf⟩ := collectExports_mem h1
  obtain ⟨g, _, hg4, hng⟩ := collectExports_mem h2
  have hall : ∀ e ∈ SUPPORTED_EXPORT_FORMATS, e.length = 4 := by decide
  have hfl : f.suffix.length = 4 := hall _ hf4
  have hgl : g.suffix.length = 4 := hall _ hg4
  have heq : destName ts1 f = destName ts2 g := hnf ▸ hng ▸ rfl
  unfold destName at heq
  have hdata := congrArg String.data heq
  simp only [String.data_append] at hdata
  have hts : ts1.data.length = ts2.data.length := by
    rw [data_length, data_length, hlen]
  have hes : f.suffix.data.length = g.suffix.data.length := by
    rw [data_length, data_length, hfl, hgl]
  exact hne (String.ext (append_middle_eq hdata hts hes))

/-- Witness for `collectExports_no_overwrite`: an artifact copied by a run
with timestamp 20240101_000000 is not overwritten by a run with timestamp
20240101_000001 over the same output tree. -/
theorem collectExports_no_overwrite_witness :
    "model_20240101_000000.obj" ∉
      collectExports [⟨"model", ".obj"⟩] "20240101_000001" :=
  collectExports_no_overwrite [⟨"model", ".obj"⟩]
    "20240101_000000" "20240101_000001" (by decide) (by decide)
    "model_20240101_000000.obj" (by decide)

/-- Counterexample to claim C2 as stated: the destination names depend only
on the output tree and on the second-resolution timestamp
`datetime.now().strftime("%Y%m%d_%H%M%S")`, so two runs that start within
the same wall-clock second receive the same timestamp string and each copy
of the second run lands on exactly the destination name the first run
produced — an overwrite, not a distinct artifact set. -/
theorem collectExports_same_second_collides :
    collectExports [⟨"model", ".obj"⟩] "20240101_000000" =
      ["model_20240101_000000.obj"] ∧
    "model_20240101_000000.obj" ∈
      collectExports [⟨"model", ".obj"⟩] "20240101_000000" := by
  refine ⟨rfl, by decide⟩

/-- Claim C3: evaluation of `extract_frames` when the video segment file
does not exist.  The body raises `FileNotFoundError` (src/core.py line
214), but the blanket `except Exception` clause at line 243 catches it and
re-raises `FrameExtractionError`, so the caller receives
`FrameExtractionError`, not the documented file-not-found error. -/
theorem extractFrames_missing_segment :
    (extractFramesBody ⟨false, true, okSpawn, 7⟩).1 =
      .error ⟨fileNotFoundError, none⟩ ∧
    (extractFrames ⟨false, true, okSpawn, 7⟩).1 =
      .error ⟨frameExtractionError, none⟩ :=
  ⟨rfl, rfl⟩

/-- Claim C4: whenever fewer than 10 frame files are present,
`run_meshroom` fails with `MeshroomError` and the reconstruction binary is
never spawned (the spawn trace contains no meshroom invocation); the
10-frame floor is the hard-coded literal at src/core.py line 268. -/
theorem runMeshroom_frame_floor (w : MeshroomWorld) (h : w.frameCount < 10) :
    (runMeshroom w).1 = .error ⟨meshroomError, none⟩ ∧
    Tool.meshroom ∉ (runMeshroom w).2 := by
  cases hfs : w.fsOk <;> cases hmi : w.meshroomInstalled <;>
    simp [runMeshroom, hfs, hmi, h]

/-- Witness for `runMeshroom_frame_floor` with 5 frames present. -/
theorem runMeshroom_frame_floor_witness :
    (runMeshroom ⟨true, true, 5, okSpawn⟩).1 = .error ⟨meshroomError, none⟩ ∧
    Tool.meshroom ∉ (runMeshroom ⟨true, true, 5, okSpawn⟩).2 :=
  runMeshroom_frame_floor ⟨true, true, 5, okSpawn⟩ (by decide)

/-- Claim C5: when frame extraction produces zero frames, the extraction
stage fails with `FrameExtractionError`, and the orchestrator never enters
the reconstruction stage. -/
theorem pipeline_zero_frames (w : PipelineWorld) (s : String) (d : Int)
    (hseg : w.ex.segmentExists = true) (hfs : w.ex.fsOk = true)
    (hff : (runCommand Tool.ffmpeg w.ex.ffmpeg).1 = .ok ())
    (hzero : w.ex.framesAfter = 0) :
    (extractFrames w.ex).1 = .error ⟨frameExtractionError, none⟩ ∧
    Stage.reconstruction ∉ (pipeline w s d).2 := by
  obtain ⟨p, e⟩ : ∃ p, runCommand Tool.ffmpeg w.ex.ffmpeg = (.ok (), p) :=
    ⟨(runCommand Tool.ffmpeg w.ex.ffmpeg).2, by rw [← hff]⟩
  have hbody : (extractFramesBody w.ex).1 =
      .error ⟨frameExtractionError, none⟩ := by
    simp [extractFramesBody, hseg, hfs, hzero, e]
  have hex : (extractFrames w.ex).1 = .error ⟨frameExtractionError, none⟩ := by
    simp [extractFrames, hbody]
  refine ⟨hex, ?_⟩
  cases hpfs : w.fsOk with
  | false => simp [pipeline, hpfs]
  | true =>
    cases hdeps : w.depsOk with
    | false => simp [pipeline, hpfs, hdeps]
    | true =>
      cases hd : (downloadSegment w.dl s d).1 with
      | error e => simp [pipeline, hpfs, hdeps, hd]
      | ok _ => simp [pipeline, hpfs, hdeps, hd, hex]

/-- Witness for `pipeline_zero_frames`: a run whose download succeeds and
whose extraction yields zero frames never enters reconstruction. -/
theorem pipeline_zero_frames_witness :
    (extractFrames zeroFramesWorld).1 = .error ⟨frameExtractionError, none⟩ ∧
    Stage.reconstruction ∉ (pipeline zeroFramesPipeline "00:00:10" 5).2 :=
  pipeline_zero_frames zeroFramesPipeline "00:00:10" 5 rfl rfl rfl rfl

/-- Claim C6: a launch request whose duration is above `MAX_DURATION` or
below 1, or whose start time does not match the `HH:MM:SS` pattern, fails
synchronously with HTTP 400 and no background task is ever scheduled (all
external-process work happens only inside the scheduled task). -/
theorem launchJob_validation (job : JobRequest)
    (h : job.duration > MAX_DURATION ∨ job.duration < 1 ∨
      matchesTimecode job.start_time = false) :
    launchJob job = (.error 400, false) := by
  by_cases h1 : job.duration > MAX_DURATION
  · simp [launchJob, h1]
  · by_cases h2 : job.duration < 1
    · simp [launchJob, h1, h2]
    · have h3 : matchesTimecode job.start_time = false := by
        rcases h with h | h | h
        · exact absurd h h1
        · exact absurd h h2
        · exact h
      simp [launchJob, h1, h2, h3]

/-- Witness for `launchJob_validation` with a zero duration. -/
theorem launchJob_validation_witness :
    launchJob ⟨"https://example.com/v", "00:00:10", 0⟩ = (.error 400, false) :=
  launchJob_validation ⟨"https://example.com/v", "00:00:10", 0⟩
    (Or.inr (Or.inl (by decide)))

/-- Claim C7: evaluation at the failing input (yt-dlp exits with code 1 on
every spawn, youtube-dl and ffmpeg would succeed).  The repeated non-zero
exits are retried inside `run_command` and surface as the tenacity class
`RetryError`, which the clause `except subprocess.CalledProcessError` at
src/core.py line 171 does not match, so the youtube-dl fallback is never
spawned and `VideoDownloadError` is declared after the primary tool alone:
each body attempt raises `VideoDownloadError` with no youtube-dl spawn in
its trace, and the whole stage performs 9 yt-dlp spawns and nothing else
before failing. -/
theorem downloadSegment_fallback_unreachable :
    (downloadBody ytdlpFailsWorld "00:00:10" 5).1 =
      .error ⟨videoDownloadError, none⟩ ∧
    Tool.youtubedl ∉ (downloadBody ytdlpFailsWorld "00:00:10" 5).2 ∧
    downloadSegment (fun _ => ytdlpFailsWorld) "00:00:10" 5 =
      (.error ⟨retryError, some videoDownloadError⟩, 3,
        List.replicate 9 Tool.ytdlp) :=
  ⟨rfl, by decide, rfl⟩

/-- Claim C8: the whole `download_segment` body is re-executed by its own
decorator — `@retry(stop=stop_after_attempt(3),
retry=retry_if_exception_type((CalledProcessError, VideoDownloadError)))` —
whenever it raises `VideoDownloadError` (the error every failed tool exit
is translated to), making 3 attempts in total before the failure
propagates to the caller; this is on top of the up-to-3 spawn attempts the
process runner itself makes per tool invocation. -/
theorem downloadSegment_stage_retry (w : Nat → DownloadWorld) (s : String)
    (d : Int)
    (h : ∀ i, (downloadBody (w i) s d).1 =
      .error ⟨videoDownloadError, none⟩) :
    (downloadSegment w s d).1 =
      .error ⟨retryError, some videoDownloadError⟩ ∧
    (downloadSegment w s d).2.1 = 3 := by
  have hret : downloadRetryOn videoDownloadError = true := by decide
  obtain ⟨t1, e1⟩ : ∃ tr, downloadBody (w 1) s d =
      (.error ⟨videoDownloadError, none⟩, tr) :=
    ⟨(downloadBody (w 1) s d).2, by rw [← h 1]⟩
  obtain ⟨t2, e2⟩ : ∃ tr, downloadBody (w 2) s d =
      (.error ⟨videoDownloadError, none⟩, tr) :=
    ⟨(downloadBody (w 2) s d).2, by rw [← h 2]⟩
  obtain ⟨t3, e3⟩ : ∃ tr, downloadBody (w 3) s d =
      (.error ⟨videoDownloadError, none⟩, tr) :=
    ⟨(downloadBody (w 3) s d).2, by rw [← h 3]⟩
  simp [downloadSegment, tenacityRun, tenacityLoop, e1, e2, e3, hret]

/-- Witness for `downloadSegment_stage_retry`: with yt-dlp failing every
spawn, the stage body runs 3 times (9 yt-dlp spawns in total). -/
theorem downloadSegment_stage_retry_witness :
    (downloadSegment (fun _ => ytdlpFailsWorld) "00:00:10" 5).1 =
      .error ⟨retryError, some videoDownloadError⟩ ∧
    (downloadSegment (fun _ => ytdlpFailsWorld) "00:00:10" 5).2.1 = 3 :=
  downloadSegment_stage_retry (fun _ => ytdlpFailsWorld) "00:00:10" 5
    (fun _ => rfl)

/-- Claim C9: `download_segment` itself validates only the upper bound
`duration <= MAX_DURATION` — a zero or negative duration with a well-formed
start time raises no validation error in the stage — while the lower bound
`duration >= 1` is enforced only by the HTTP launch handler, which rejects
it with HTTP 400. -/
theorem download_duration_lower_bound_unenforced :
    (∀ s : String, ∀ d : Int, d ≤ MAX_DURATION → matchesTimecode s = true →
      downloadValidate s d = none) ∧
    (∀ job : JobRequest, job.duration < 1 →
      launchJob job = (.error 400, false)) := by
  constructor
  · intro s d hd hs
    have h1 : ¬ d > MAX_DURATION := by
      simp only [MAX_DURATION] at *
      omega
    simp [downloadValidate, h1, hs]
  · intro job hj
    have h1 : ¬ job.duration > MAX_DURATION := by
      simp only [MAX_DURATION]
      omega
    simp [launchJob, h1, hj]

/-- Witness for `download_duration_lower_bound_unenforced` at duration 0:
the stage raises no validation error, while the HTTP handler rejects. -/
theorem download_duration_lower_bound_unenforced_witness :
    downloadValidate "00:00:00" 0 = none ∧
    launchJob ⟨"https://example.com/v", "00:00:00", 0⟩ =
      (.error 400, false) :=
  ⟨download_duration_lower_bound_unenforced.1 "00:00:00" 0
      (by decide) (by decide),
   download_duration_lower_bound_unenforced.2
      ⟨"https://example.com/v", "00:00:00", 0⟩ (by decide)⟩

/-- Claim C10: each stage-specific error class (`VideoDownloadError`,
`FrameExtractionError`, `MeshroomError`, `DependencyError`,
`FileSystemError`) is a subclass of `PipelineError`, so an
`except PipelineError` handler catches each of them, while the `ValueError`
raised for a bad duration or timecode is not a `PipelineError` subclass. -/
theorem pipelineError_taxonomy :
    isSubclass videoDownloadError pipelineError = true ∧
    isSubclass frameExtractionError pipelineError = true ∧
    isSubclass meshroomError pipelineError = true ∧
    isSubclass dependencyError pipelineError = true ∧
    isSubclass fileSystemError pipelineError = true ∧
    isSubclass valueError pipelineError = false := by
  decide

end Parachute
